import Mathlib

/-!
Verification of the Ruida protocol analyzer (StevenIsaacs/ruida-protocol-analyzer).

Shallow embedding of the packet reader / deswizzler (src/ruida_analyzer.py and
src/protocols/ruida/ruida_analyzer.py), the handshake tracker, the magic
discovery scan, the parameter decoder and the parser state machine
(src/ruida_parser.py).  Python integers are modelled as Nat/Int with explicit
masking where the source masks; Python exceptions are modelled with Except /
Option; emitter log lines that matter to the claims are collected in lists.
-/

namespace Ruida

/-- Single byte handshake constants (src/ruida_parser.py lines 11-15). -/
def ACK : Nat := 0xCC
def ERR : Nat := 0xCD
def ENQ : Nat := 0xCE
def NAK : Nat := 0xCF

/-- `CMD_MASK` (src/ruida_parser.py line 17). -/
def CMD_MASK : Nat := 0x80

/-!  ## RdDecoder numeric accumulators (src/ruida_parser.py lines 572-595)  -/

/-- `RdDecoder.to_uint` (src/ruida_parser.py lines 587-595).  The source loop
body is `_v += (_v << 7) + data[_i]`, i.e. the accumulator is added to its own
shift (`v := v + (v <<< 7) + b`).  Indexing `data[_i]` is total here via
`getD`; all call sites supply at least `n` bytes. -/
def to_uint (data : List Nat) (n : Nat) : Nat :=
  (List.range n).foldl (fun v i => v + ((v <<< 7) + data.getD i 0)) 0

/-- `RdDecoder.to_int` (src/ruida_parser.py lines 572-585).  Same accumulator
shape as `to_uint`; the first byte is masked with `0x3F` and bit 6 of the
first byte negates the result. -/
def to_int (data : List Nat) (n : Nat) : Int :=
  let v : Int := (List.range n).foldl
    (fun v i =>
      let b := data.getD i 0
      let b := if i == 0 then b &&& 0x3F else b
      v + ((v <<< 7) + (b : Int))) 0
  if data.getD 0 0 &&& 0x40 != 0 then v * (-1) else v

/-- `RdDecoder.rd_uint14` (src/ruida_parser.py lines 601-603): `to_uint` with
the primed length, which `prime` takes from `RD_TYPES['uint_14']`, i.e. 2. -/
def rd_uint14_value (data : List Nat) : Nat :=
  to_uint data 2

/-- The value the specification asserts for the unsigned 14-bit decoder:
`((hi & 0x7F) << 7) | (lo & 0x7F)`.  Modelled from the spec sentence for
comparison with `rd_uint14_value` (claim C1). -/
def spec_uint14 (hi lo : Nat) : Nat :=
  ((hi &&& 0x7F) <<< 7) ||| (lo &&& 0x7F)

/-!  ## Deswizzle / swizzle (src/ruida_analyzer.py lines 181-190)  -/

/-- `RdPacket.un_swizzle_byte` (src/ruida_analyzer.py lines 181-190, identical
in src/protocols/ruida/ruida_analyzer.py lines 178-187).  Python's
`(b - 1) & 0xFF` on a byte wraps `0 - 1` to `0xFF`; on `Nat` the same residue
is `(b + 255) &&& 0xFF`. -/
def un_swizzle_byte (magic b : Nat) : Nat :=
  let b := (b + 255) &&& 0xFF
  let b := b ^^^ magic
  let b := b ^^^ ((b >>> 7) &&& 0xFF)
  let b := b ^^^ ((b <<< 7) &&& 0xFF)
  b ^^^ ((b >>> 7) &&& 0xFF)

/-- The encode counterpart of `un_swizzle_byte`: the inverse chain (xor by
bit 7 / bit 0 / bit 7 again, xor the magic, add one).  This is the standard
Ruida swizzle; the repository only ships the decode direction. -/
def swizzle_byte (magic b : Nat) : Nat :=
  let b := b ^^^ ((b >>> 7) &&& 0xFF)
  let b := b ^^^ ((b <<< 7) &&& 0xFF)
  let b := b ^^^ ((b >>> 7) &&& 0xFF)
  let b := b ^^^ magic
  (b + 1) &&& 0xFF

end Ruida

/-- C1: the claim asserts `rd_uint14` yields `((hi & 0x7F) << 7) | (lo & 0x7F)`
with accumulator `v := (v << 7) + byte`.  The source's accumulator is
`v += (v << 7) + byte` (double accumulation, spec §9 calls it an accidental
bug), so on input bytes `[0x01, 0x00]` the code computes 129 where the claim
requires 128; in general the code computes `129*hi + lo`. -/
theorem c1_rd_uint14_failing_input :
    Ruida.rd_uint14_value [0x01, 0x00] = 129 ∧
    Ruida.spec_uint14 0x01 0x00 = 128 ∧
    (∀ hi lo : Nat, Ruida.to_uint [hi, lo] 2 = 129 * hi + lo) := by
  refine ⟨rfl, rfl, fun hi lo => ?_⟩
  simp [Ruida.to_uint, List.range_succ, Nat.shiftLeft_eq]
  ring

namespace Ruida

/-- The magic-independent tail of `un_swizzle_byte`: the last three xor
steps. -/
def twist_un (b : Nat) : Nat :=
  let b := b ^^^ ((b >>> 7) &&& 0xFF)
  let b := b ^^^ ((b <<< 7) &&& 0xFF)
  b ^^^ ((b >>> 7) &&& 0xFF)

/-- The magic-independent head of `swizzle_byte`: the first three xor
steps. -/
def twist_sw (b : Nat) : Nat :=
  let b := b ^^^ ((b >>> 7) &&& 0xFF)
  let b := b ^^^ ((b <<< 7) &&& 0xFF)
  b ^^^ ((b >>> 7) &&& 0xFF)

/-- `(b - 1) & 0xFF` on a byte, as in the first line of `un_swizzle_byte`. -/
def dec_wrap (b : Nat) : Nat := (b + 255) &&& 0xFF

/-- `(b + 1) & 0xFF`, the last line of `swizzle_byte`. -/
def inc_wrap (b : Nat) : Nat := (b + 1) &&& 0xFF

lemma un_swizzle_byte_decompose (m b : Nat) :
    un_swizzle_byte m b = twist_un (dec_wrap b ^^^ m) := rfl

lemma swizzle_byte_decompose (m b : Nat) :
    swizzle_byte m b = inc_wrap (twist_sw b ^^^ m) := rfl

set_option maxRecDepth 10000 in
lemma twist_facts : ∀ x : Fin 256,
    twist_un x.val < 256 ∧ twist_sw x.val < 256 ∧
    twist_un (twist_sw x.val) = x.val ∧ twist_sw (twist_un x.val) = x.val := by
  decide

set_option maxRecDepth 10000 in
lemma wrap_facts : ∀ x : Fin 256,
    dec_wrap x.val < 256 ∧ inc_wrap (dec_wrap x.val) = x.val ∧
    dec_wrap (inc_wrap x.val) = x.val := by
  decide

lemma xor_byte_lt {x y : Nat} (hx : x < 256) (hy : y < 256) : x ^^^ y < 256 := by
  have : x ^^^ y < 2 ^ 8 := Nat.xor_lt_two_pow hx hy
  simpa using this

end Ruida

/-- C2: for every magic byte and every byte, the deswizzle function
`un_swizzle_byte` is inverted by the encode counterpart `swizzle_byte` in both
orders, hence it is a bijection on `[0,255]`. -/
theorem c2_swizzle_roundtrip (b m : Nat) (hb : b < 256) (hm : m < 256) :
    Ruida.un_swizzle_byte m (Ruida.swizzle_byte m b) = b ∧
    Ruida.swizzle_byte m (Ruida.un_swizzle_byte m b) = b := by
  constructor
  · rw [Ruida.swizzle_byte_decompose, Ruida.un_swizzle_byte_decompose]
    have ht := Ruida.twist_facts ⟨b, hb⟩
    have hx : Ruida.twist_sw b ^^^ m < 256 := Ruida.xor_byte_lt ht.2.1 hm
    have hw := (Ruida.wrap_facts ⟨Ruida.twist_sw b ^^^ m, hx⟩).2.2
    simp only [Ruida.dec_wrap, Ruida.inc_wrap] at hw ⊢
    rw [hw, Nat.xor_cancel_right]
    exact ht.2.2.1
  · rw [Ruida.un_swizzle_byte_decompose, Ruida.swizzle_byte_decompose]
    have hd : Ruida.dec_wrap b < 256 := (Ruida.wrap_facts ⟨b, hb⟩).1
    have hy : Ruida.dec_wrap b ^^^ m < 256 := Ruida.xor_byte_lt hd hm
    have ht := (Ruida.twist_facts ⟨Ruida.dec_wrap b ^^^ m, hy⟩).2.2.2
    rw [ht, Nat.xor_cancel_right]
    exact (Ruida.wrap_facts ⟨b, hb⟩).2.1

/-- Witness for C2 at `b = 0x37`, `m = 0x88`. -/
theorem c2_swizzle_roundtrip_witness :
    Ruida.un_swizzle_byte 0x88 (Ruida.swizzle_byte 0x88 0x37) = 0x37 ∧
    Ruida.swizzle_byte 0x88 (Ruida.un_swizzle_byte 0x88 0x37) = 0x37 :=
  c2_swizzle_roundtrip 0x37 0x88 (by decide) (by decide)

namespace Ruida

/-!  ## Packet loading (`RdPacket._next_packet`)

Two copies exist in the repository: src/ruida_analyzer.py (lines 192-239,
"old" below) and src/protocols/ruida/ruida_analyzer.py (lines 189-240, "pro"
below).  They differ in one line: the pro copy resets `handshake` to `False`
for host-direction packets, the old copy leaves it unchanged.  -/

/-- One framed record as produced by `UdpDumpReader.next_packet`: the port
pair and the raw (still swizzled, checksum included) payload bytes. -/
structure RawRec where
  toPort : Nat
  fromPort : Nat
  raw : List Nat
  deriving Repr, DecidableEq

/-- `self.reply = self.reader.from_port in [40200, 40207]`. -/
def isReply (r : RawRec) : Bool := r.fromPort == 40200 || r.fromPort == 40207

/-- `self.swizzled = self.reader.to_port in [40200, 50200]`. -/
def isSwizzled (r : RawRec) : Bool := r.toPort == 40200 || r.toPort == 50200

/-- `int.from_bytes(self.reader.data[0:2])`: big-endian value of the first
two raw bytes. -/
def be16 (raw : List Nat) : Nat := (raw.take 2).foldl (fun a b => a * 256 + b) 0

/-- Payload length after checksum stripping: replies keep all bytes, host
packets lose the two checksum bytes (`self.reader.data[2:]`). -/
def payloadLen (r : RawRec) : Nat :=
  (if isReply r then r.raw else r.raw.drop 2).length

/-- The mutable state of an `RdPacket` instance (the fields the claims
depend on).  `chkOk` and `swizzled` are only written by `_next_packet`. -/
structure PkState where
  reply : Bool
  swizzled : Bool
  handshake : Bool
  chkOk : Bool
  data : List Nat
  length : Nat
  take : Nat
  newPacket : Bool
  errs : List String
  deriving Repr, DecidableEq

/-- `remaining = self.length - self._take`. -/
def PkState.remaining (st : PkState) : Nat := st.length - st.take

/-- `RdPacket.__init__` field values. -/
def initPk : PkState :=
  { reply := false, swizzled := false, handshake := false, chkOk := true
    data := [], length := 0, take := 0, newPacket := false, errs := [] }

/-- The error line `_next_packet` emits on a checksum mismatch (the source
interpolates the two 16-bit values; the text is abstracted to a tag). -/
def chkErrMsg : String := "Checksum mismatch."

/-- `RdPacket._next_packet` of src/ruida_analyzer.py (lines 192-239), for one
record.  `.error` models the `SyntaxError` that `RdaEmitter.error` raises in
strict (`--stop-on-error`) mode; otherwise the error line is collected in
`errs` and processing continues.  Note the old copy updates `handshake` only
for replies. -/
def loadPacketOld (m : Nat) (strict : Bool) (st : PkState) (r : RawRec) :
    Except String PkState :=
  let reply := isReply r
  let swizzled := isSwizzled r
  let dataPart := if reply then r.raw else r.raw.drop 2
  let chkOk := if reply then true else be16 r.raw == (dataPart.sum &&& 0xFFFF)
  let errs := if chkOk then st.errs else chkErrMsg :: st.errs
  if !chkOk && strict then .error "Stopping..." else
  let data := if swizzled then dataPart.map (un_swizzle_byte m) else dataPart
  .ok { reply := reply
        swizzled := swizzled
        handshake := if reply then data.length == 1 else st.handshake
        chkOk := chkOk
        data := data
        length := data.length
        take := 0
        newPacket := true
        errs := errs }

/-- Non-strict `_next_packet` (old copy); never aborts. -/
def loadPacketOldNS (m : Nat) (st : PkState) (r : RawRec) : PkState :=
  match loadPacketOld m false st r with
  | .ok s => s
  | .error _ => st

/-- `RdPacket._next_packet` of src/protocols/ruida/ruida_analyzer.py
(lines 189-240), non-strict: identical to the old copy except that the
`else` branch of the stats update also sets `self.handshake = False`. -/
def loadPacketPro (m : Nat) (st : PkState) (r : RawRec) : PkState :=
  let reply := isReply r
  let swizzled := isSwizzled r
  let dataPart := if reply then r.raw else r.raw.drop 2
  let chkOk := if reply then true else be16 r.raw == (dataPart.sum &&& 0xFFFF)
  let errs := if chkOk then st.errs else chkErrMsg :: st.errs
  let data := if swizzled then dataPart.map (un_swizzle_byte m) else dataPart
  { reply := reply
    swizzled := swizzled
    handshake := if reply then data.length == 1 else false
    chkOk := chkOk
    data := data
    length := data.length
    take := 0
    newPacket := true
    errs := errs }

/-- `decode` (src/ruida_analyzer.py lines 407-424) feeds a byte to the parser
state machine iff the current packet is not a handshake:
`if not self._pkt.handshake: ... self._parser.step(...)`. -/
def deliversToParser (st : PkState) : Bool := !st.handshake

lemma loadPacketOld_false_ok (m : Nat) (st : PkState) (r : RawRec) :
    loadPacketOld m false st r = .ok (loadPacketOldNS m st r) := by
  unfold loadPacketOldNS loadPacketOld
  simp

lemma loadNS_length (m : Nat) (st : PkState) (r : RawRec) :
    (loadPacketOldNS m st r).length = payloadLen r := by
  unfold loadPacketOldNS loadPacketOld payloadLen
  cases h : isReply r <;> cases h2 : isSwizzled r <;> simp [h, h2]

lemma loadNS_take (m : Nat) (st : PkState) (r : RawRec) :
    (loadPacketOldNS m st r).take = 0 := by
  unfold loadPacketOldNS loadPacketOld
  simp

lemma loadNS_remaining (m : Nat) (st : PkState) (r : RawRec) :
    (loadPacketOldNS m st r).remaining = payloadLen r := by
  rw [PkState.remaining, loadNS_length, loadNS_take]
  exact Nat.sub_zero _

/-- `_next_packet` does not read `new_packet`, so its result ignores that
field of the incoming state. -/
lemma loadNS_newPacket_irrel (m : Nat) (st : PkState) (r : RawRec) (b : Bool) :
    loadPacketOldNS m { st with newPacket := b } r = loadPacketOldNS m st r := by
  unfold loadPacketOldNS loadPacketOld
  simp

end Ruida

/-- C3: for a host-direction packet, `chk_ok` is computed on the raw
(pre-deswizzle) payload as `sum(payload[2..]) & 0xFFFF == be16(payload[0..2])`;
a mismatch pushes an error line; non-strict loading always continues
(returns `.ok`), strict loading aborts exactly on a mismatch; replies are
always checksum-valid and emit no error line. -/
theorem c3_checksum_policy (m : Nat) (st : Ruida.PkState) (r : Ruida.RawRec) :
    (Ruida.loadPacketOldNS m st r).chkOk =
      (if Ruida.isReply r then true
       else Ruida.be16 r.raw == ((r.raw.drop 2).sum &&& 0xFFFF)) ∧
    (Ruida.loadPacketOldNS m st r).errs =
      (if (Ruida.loadPacketOldNS m st r).chkOk then st.errs
       else Ruida.chkErrMsg :: st.errs) ∧
    Ruida.loadPacketOld m false st r = .ok (Ruida.loadPacketOldNS m st r) ∧
    Ruida.loadPacketOld m true st r =
      (if (Ruida.loadPacketOldNS m st r).chkOk
       then .ok (Ruida.loadPacketOldNS m st r) else .error "Stopping...") := by
  refine ⟨?_, ?_, Ruida.loadPacketOld_false_ok m st r, ?_⟩ <;>
    · unfold Ruida.loadPacketOldNS Ruida.loadPacketOld
      cases h : Ruida.isReply r <;>
        simp [h] <;>
        cases h2 : (Ruida.be16 r.raw == ((r.raw.drop 2).sum &&& 0xFFFF)) <;>
        simp [h2]


namespace Ruida

/-!  ## `RdPacket.next_byte` (src/ruida_analyzer.py lines 278-307)

`next_byte` first clears `new_packet`, then loops: while the current packet
has unread bytes it returns the byte at the take index; otherwise it loads
the next record (end of the record list means end of file and `None`).
Non-strict mode is modelled (`loadPacketOldNS`); the magic is assumed set. -/

def nextByteLoop (m : Nat) (st : PkState) (recs : List RawRec) :
    Option Nat × PkState × List RawRec :=
  if 0 < st.remaining then
    (some (st.data.getD st.take 0), { st with take := st.take + 1 }, recs)
  else
    match recs with
    | [] => (none, st, [])
    | r :: rest => nextByteLoop m (loadPacketOldNS m st r) rest

/-- `next_byte`: `self.new_packet = False` followed by the read loop. -/
def nextByte (m : Nat) (st : PkState) (recs : List RawRec) :
    Option Nat × PkState × List RawRec :=
  nextByteLoop m { st with newPacket := false } recs

lemma nextByteLoop_none_iff (m : Nat) (recs : List RawRec) : ∀ st : PkState,
    (nextByteLoop m st recs).1 = none ↔
      (st.remaining = 0 ∧ ∀ r ∈ recs, payloadLen r = 0) := by
  induction recs with
  | nil =>
    intro st
    unfold nextByteLoop
    by_cases h : 0 < st.remaining <;> simp [h] <;> omega
  | cons r rest ih =>
    intro st
    unfold nextByteLoop
    by_cases h : 0 < st.remaining
    · simp [h]
      omega
    · have h0 : st.remaining = 0 := by omega
      simp only [h, if_false]
      rw [ih (loadPacketOldNS m st r)]
      rw [loadNS_remaining]
      simp only [h0, List.mem_cons, true_and]
      constructor
      · rintro ⟨h1, h2⟩ x hx
        rcases hx with hx | hx
        · exact hx ▸ h1
        · exact h2 x hx
      · intro h1
        exact ⟨h1 r (Or.inl rfl), fun x hx => h1 x (Or.inr hx)⟩

lemma nextByteLoop_fresh (m : Nat) (recs : List RawRec) : ∀ st : PkState,
    st.remaining = 0 → ∀ b, (nextByteLoop m st recs).1 = some b →
    ∃ pre r post, recs = pre ++ r :: post ∧
      (∀ x ∈ pre, payloadLen x = 0) ∧ 0 < payloadLen r ∧
      nextByteLoop m st recs =
        (some ((loadPacketOldNS m (List.foldl (loadPacketOldNS m) st pre) r).data.getD 0 0),
         { loadPacketOldNS m (List.foldl (loadPacketOldNS m) st pre) r with take := 1 },
         post) := by
  induction recs with
  | nil =>
    intro st h0 b hb
    unfold nextByteLoop at hb
    rw [if_neg (by omega)] at hb
    simp at hb
  | cons r rest ih =>
    intro st h0 b hb
    unfold nextByteLoop at hb
    rw [if_neg (by omega)] at hb
    by_cases hp : 0 < payloadLen r
    · refine ⟨[], r, rest, rfl, by simp, hp, ?_⟩
      simp only [List.foldl_nil]
      unfold nextByteLoop
      rw [if_neg (by omega)]
      show nextByteLoop m (loadPacketOldNS m st r) rest = _
      unfold nextByteLoop
      rw [if_pos (by rw [loadNS_remaining]; exact hp)]
      rw [loadNS_take]
    · have hz : payloadLen r = 0 := by omega
      have h0' : (loadPacketOldNS m st r).remaining = 0 := by
        rw [loadNS_remaining]; exact hz
      obtain ⟨pre, r', post, hrec, hpre, hpr, hres⟩ :=
        ih (loadPacketOldNS m st r) h0' b hb
      refine ⟨r :: pre, r', post, by simp [hrec], ?_, hpr, ?_⟩
      · intro x hx
        rcases List.mem_cons.mp hx with hx | hx
        · exact hx ▸ hz
        · exact hpre x hx
      · simp only [List.foldl_cons]
        unfold nextByteLoop
        rw [if_neg (by omega)]
        exact hres

/-- Loading ignores the `new_packet` field of the state it folds over. -/
lemma foldl_load_newPacket_irrel (m : Nat) (pre : List RawRec) (st : PkState)
    (r : RawRec) :
    loadPacketOldNS m
        (List.foldl (loadPacketOldNS m) { st with newPacket := false } pre) r =
      loadPacketOldNS m (List.foldl (loadPacketOldNS m) st pre) r := by
  cases pre with
  | nil => simp only [List.foldl_nil]; exact loadNS_newPacket_irrel m st r false
  | cons p pre' =>
    simp only [List.foldl_cons]
    rw [loadNS_newPacket_irrel m st p false]

end Ruida

/-- C10: `next_byte` returns `None` iff the current packet is exhausted and
every remaining record's payload is empty after checksum stripping; a byte
from the current packet decrements `remaining` by exactly 1 and advances the
take index; otherwise the byte comes from the first record with a nonempty
payload (records with empty payloads are loaded and skipped transparently),
with the take index at 1 and `remaining` reset to the payload length minus
1. -/
theorem c10_next_byte_accounting (m : Nat) (st : Ruida.PkState)
    (recs : List Ruida.RawRec) :
    ((Ruida.nextByte m st recs).1 = none ↔
      (st.remaining = 0 ∧ ∀ r ∈ recs, Ruida.payloadLen r = 0)) ∧
    (0 < st.remaining →
      Ruida.nextByte m st recs =
        (some (st.data.getD st.take 0),
         { st with newPacket := false, take := st.take + 1 }, recs) ∧
      ((Ruida.nextByte m st recs).2.1).remaining + 1 = st.remaining) ∧
    (st.remaining = 0 → ∀ b, (Ruida.nextByte m st recs).1 = some b →
      ∃ pre r post, recs = pre ++ r :: post ∧
        (∀ x ∈ pre, Ruida.payloadLen x = 0) ∧ 0 < Ruida.payloadLen r ∧
        (let loaded := Ruida.loadPacketOldNS m
            (List.foldl (Ruida.loadPacketOldNS m) st pre) r
         Ruida.nextByte m st recs =
           (some (loaded.data.getD 0 0), { loaded with take := 1 }, post) ∧
         loaded.remaining = Ruida.payloadLen r ∧
         (Ruida.nextByte m st recs).2.1.remaining = Ruida.payloadLen r - 1)) := by
  have hrem : (({ st with newPacket := false } : Ruida.PkState)).remaining
      = st.remaining := rfl
  refine ⟨?_, ?_, ?_⟩
  · rw [Ruida.nextByte, Ruida.nextByteLoop_none_iff, hrem]
  · intro h
    constructor
    · rw [Ruida.nextByte]
      unfold Ruida.nextByteLoop
      rw [if_pos (hrem ▸ h)]
    · rw [Ruida.nextByte]
      unfold Ruida.nextByteLoop
      rw [if_pos (hrem ▸ h)]
      simp only [Ruida.PkState.remaining] at h ⊢
      omega
  · intro h0 b hb
    rw [Ruida.nextByte] at hb
    obtain ⟨pre, r, post, hrec, hpre, hpr, hres⟩ :=
      Ruida.nextByteLoop_fresh m recs _ (hrem ▸ h0) b hb
    rw [Ruida.foldl_load_newPacket_irrel] at hres
    refine ⟨pre, r, post, hrec, hpre, hpr, ?_⟩
    refine ⟨by rw [Ruida.nextByte]; exact hres, Ruida.loadNS_remaining m _ r, ?_⟩
    rw [Ruida.nextByte, hres]
    simp only [Ruida.PkState.remaining]
    rw [Ruida.loadNS_length]

namespace Ruida

/-- A length-1 ACK reply record (from controller port 40200, unswizzled). -/
def c8r1 : RawRec := { toPort := 51000, fromPort := 40200, raw := [0xCC] }

/-- A host-direction record: 2 checksum bytes `00 D7` and one payload byte
`D7` (checksum valid: `0x00D7 = 0xD7`). -/
def c8r2 : RawRec := { toPort := 50200, fromPort := 51000, raw := [0x00, 0xD7, 0xD7] }

end Ruida

/-- C8: failing input for the old copy (src/ruida_analyzer.py).  Its
`_next_packet` sets `handshake` only for replies, so after a length-1 ACK
reply a following host-direction packet still carries `handshake = true`,
contradicting the claimed invariant `handshake ↔ (reply ∧ length = 1)`, and
`decode` then skips the host bytes instead of delivering them to the parser.
In contrast, the copy under src/protocols/ruida resets the flag, and its
flag equals `reply ∧ length = 1` after every load. -/
theorem c8_handshake_flag_failing_input :
    (Ruida.loadPacketOldNS 0x88
        (Ruida.loadPacketOldNS 0x88 Ruida.initPk Ruida.c8r1) Ruida.c8r2).handshake
        = true ∧
    (Ruida.loadPacketOldNS 0x88
        (Ruida.loadPacketOldNS 0x88 Ruida.initPk Ruida.c8r1) Ruida.c8r2).reply
        = false ∧
    Ruida.deliversToParser
        (Ruida.loadPacketOldNS 0x88
          (Ruida.loadPacketOldNS 0x88 Ruida.initPk Ruida.c8r1) Ruida.c8r2)
        = false ∧
    (∀ (m : Nat) (st : Ruida.PkState) (r : Ruida.RawRec),
      (Ruida.loadPacketPro m st r).handshake =
        (Ruida.isReply r && (Ruida.payloadLen r == 1))) := by
  refine ⟨by decide, by decide, by decide, fun m st r => ?_⟩
  unfold Ruida.loadPacketPro
  cases h : Ruida.isReply r <;> cases h2 : Ruida.isSwizzled r <;>
    simp [h, h2, Ruida.payloadLen, List.length_map]

namespace Ruida

/-!  ## Handshake tracker (`RuidaProtocolAnalyzer.check_handshake`,
src/protocols/ruida/ruida_analyzer.py lines 369-404) -/

/-- The packet attributes `check_handshake` reads: direction and (deswizzled)
payload. -/
structure HsPacket where
  reply : Bool
  data : List Nat
  deriving Repr, DecidableEq

/-- The `handshake` flag as the pro copy's `_next_packet` computes it:
a reply whose payload length is 1. -/
def hsFlag (p : HsPacket) : Bool := p.reply && (p.data.length == 1)

/-- `_b == rp.ACK` on the single handshake byte `self._pkt.data[0]`. -/
def isAckByte (p : HsPacket) : Bool := p.data.headD 0 == ACK

/-- `check_handshake`'s effect on `acks_expected`: `+= 1` for a host packet,
`-= 1` on an ACK handshake reply, unchanged otherwise (NAK/ERR/ENQ,
unexpected bytes and reply data only produce log messages, which are not
modelled). -/
def checkHandshake (acks : Int) (p : HsPacket) : Int :=
  if p.reply then
    if hsFlag p then
      if isAckByte p then acks - 1 else acks
    else acks
  else acks + 1

/-- The per-packet change of `acks_expected`. -/
def hsDelta (p : HsPacket) : Int :=
  if !p.reply then 1
  else if hsFlag p && isAckByte p then -1 else 0

/-- Number of host-direction packets. -/
def hostCount (ps : List HsPacket) : Nat := ps.countP (fun p => !p.reply)

/-- Number of length-1 ACK replies. -/
def ackCount (ps : List HsPacket) : Nat :=
  ps.countP (fun p => hsFlag p && isAckByte p)

lemma checkHandshake_eq_delta (a : Int) (p : HsPacket) :
    checkHandshake a p = a + hsDelta p := by
  unfold checkHandshake hsDelta
  cases hr : p.reply <;> cases hl : hsFlag p <;>
    cases hb : isAckByte p <;> simp [hr, hl, hb] <;> omega

lemma foldl_checkHandshake (ps : List HsPacket) : ∀ a : Int,
    List.foldl checkHandshake a ps =
      a + (hostCount ps : Int) - (ackCount ps : Int) := by
  induction ps with
  | nil => intro a; simp [hostCount, ackCount]
  | cons p rest ih =>
    intro a
    rw [List.foldl_cons, ih, checkHandshake_eq_delta]
    unfold hostCount ackCount hsDelta
    cases hr : p.reply <;> cases hl : hsFlag p <;>
      cases hb : isAckByte p <;>
      simp [hr, hl, hb, List.countP_cons] <;>
      first
      | omega
      | (simp [hsFlag, hr] at hl)

end Ruida

/-- C6 counterexample: a capture consisting of a single length-1 ACK reply
drives `acks_expected` to `-1`, so the claim that it "remains non-negative
throughout processing" for every packet sequence is false — the code
decrements on ACK without a guard. -/
theorem c6_acks_negative_counterexample :
    List.foldl Ruida.checkHandshake 0
        [{ reply := true, data := [0xCC] : Ruida.HsPacket }] = -1 ∧
    (-1 : Int) < 0 := by
  decide

/-- C6 amended: `acks_expected` changes by exactly +1 on a host packet, by
-1 on a length-1 ACK reply, and is unchanged by NAK/ENQ/ERR and reply-data
packets; hence after any prefix it equals #host − #ACK, and it stays
non-negative provided every prefix contains at least as many host packets as
ACK replies (without that proviso it can go negative). -/
theorem c6_acks_delta_amended (ps : List Ruida.HsPacket) :
    (∀ (a : Int) (p : Ruida.HsPacket),
        Ruida.checkHandshake a p = a + Ruida.hsDelta p) ∧
    (∀ a : Int, List.foldl Ruida.checkHandshake a ps =
        a + (Ruida.hostCount ps : Int) - (Ruida.ackCount ps : Int)) ∧
    ((∀ k, k ≤ ps.length →
        Ruida.ackCount (ps.take k) ≤ Ruida.hostCount (ps.take k)) →
      ∀ k, k ≤ ps.length →
        0 ≤ List.foldl Ruida.checkHandshake 0 (ps.take k)) := by
  refine ⟨Ruida.checkHandshake_eq_delta, Ruida.foldl_checkHandshake ps, ?_⟩
  intro h k hk
  rw [Ruida.foldl_checkHandshake]
  have := h k hk
  omega

/-- Witness for C6 amended on the capture [host, ACK]. -/
theorem c6_acks_delta_amended_witness :
    Ruida.checkHandshake 5 { reply := true, data := [0xCC] } =
      5 + Ruida.hsDelta { reply := true, data := [0xCC] } ∧
    List.foldl Ruida.checkHandshake 3
        [{ reply := false, data := [0xD7] : Ruida.HsPacket },
         { reply := true, data := [0xCC] }] =
      3 + (Ruida.hostCount
            [{ reply := false, data := [0xD7] : Ruida.HsPacket },
             { reply := true, data := [0xCC] }] : Int)
        - (Ruida.ackCount
            [{ reply := false, data := [0xD7] : Ruida.HsPacket },
             { reply := true, data := [0xCC] }] : Int) ∧
    0 ≤ List.foldl Ruida.checkHandshake 0
        ([{ reply := false, data := [0xD7] : Ruida.HsPacket },
          { reply := true, data := [0xCC] }].take 2) :=
  ⟨(c6_acks_delta_amended []).1 5 _,
   (c6_acks_delta_amended
      [{ reply := false, data := [0xD7] }, { reply := true, data := [0xCC] }]).2.1 3,
   (c6_acks_delta_amended
      [{ reply := false, data := [0xD7] }, { reply := true, data := [0xCC] }]).2.2
     (by decide) 2 (by decide)⟩

namespace Ruida

/-- A current-packet state with two unread bytes, for the C10 witness. -/
def c10st : PkState := { initPk with data := [5, 6], length := 2 }

/-- A host record whose payload is empty after checksum stripping. -/
def c10e : RawRec := { toPort := 50200, fromPort := 51000, raw := [0, 0] }

/-- A length-1 reply record with payload `[0xCC]`. -/
def c10d : RawRec := { toPort := 51000, fromPort := 40200, raw := [0xCC] }

end Ruida

/-- Witness for C10: a byte read from the current packet, and a byte read
after transparently skipping an empty packet. -/
theorem c10_next_byte_accounting_witness :
    (Ruida.nextByte 0x88 Ruida.c10st [] =
       (some (Ruida.c10st.data.getD Ruida.c10st.take 0),
        { Ruida.c10st with newPacket := false, take := Ruida.c10st.take + 1 },
        []) ∧
     ((Ruida.nextByte 0x88 Ruida.c10st []).2.1).remaining + 1
        = Ruida.c10st.remaining) ∧
    (∃ pre r post,
      ([Ruida.c10e, Ruida.c10d] : List Ruida.RawRec) = pre ++ r :: post ∧
      (∀ x ∈ pre, Ruida.payloadLen x = 0) ∧ 0 < Ruida.payloadLen r ∧
      (let loaded := Ruida.loadPacketOldNS 0x88
          (List.foldl (Ruida.loadPacketOldNS 0x88) Ruida.initPk pre) r
       Ruida.nextByte 0x88 Ruida.initPk [Ruida.c10e, Ruida.c10d] =
         (some (loaded.data.getD 0 0), { loaded with take := 1 }, post) ∧
       loaded.remaining = Ruida.payloadLen r ∧
       (Ruida.nextByte 0x88 Ruida.initPk [Ruida.c10e, Ruida.c10d]).2.1.remaining
         = Ruida.payloadLen r - 1)) :=
  ⟨(c10_next_byte_accounting 0x88 Ruida.c10st []).2.1 (by decide),
   (c10_next_byte_accounting 0x88 Ruida.initPk [Ruida.c10e, Ruida.c10d]).2.2
     rfl 0xCC (by decide)⟩

namespace Ruida

/-!  ## Magic discovery (`RdPacket.set_magic`)

src/ruida_analyzer.py lines 241-276 and src/protocols/ruida/ruida_analyzer.py
lines 242-278.  The scan walks records; a candidate is a length-1 record from
port 40200; a candidate byte found in `MAGIC_LUT` is adopted; each
non-matching candidate decrements a budget initialised to 4 and the terminal
shutdown fires when a non-matching candidate arrives with the budget at 0.
Record-list exhaustion ends the scan (as in the pro copy). -/

/-- `MAGIC_LUT = {0xC6: 0x88}`. -/
def MAGIC_LUT (b : Nat) : Option Nat := if b == 0xC6 then some 0x88 else none

inductive ScanOut where
  | found (m : Nat)
  | shutdown
  | eof
  deriving Repr, DecidableEq

/-- The `set_magic` discovery loop over a record list, with `tries` the
remaining budget (`_tries = 4` at the start). -/
def setMagicScan (tries : Nat) (recs : List RawRec) : ScanOut :=
  match recs with
  | [] => .eof
  | r :: rest =>
    if r.fromPort == 40200 && r.raw.length == 1 then
      match MAGIC_LUT (r.raw.headD 0) with
      | some m => .found m
      | none => if tries != 0 then setMagicScan (tries - 1) rest else .shutdown
    else setMagicScan tries rest

/-- The candidate bytes of a record stream: the first byte of each length-1
record from port 40200. -/
def candidateBytes (recs : List RawRec) : List Nat :=
  (recs.filter (fun r => r.fromPort == 40200 && r.raw.length == 1)).map
    (fun r => r.raw.headD 0)

/-- The discovery loop restricted to candidate bytes. -/
def scanCands (tries : Nat) (bs : List Nat) : ScanOut :=
  match bs with
  | [] => .eof
  | b :: rest =>
    match MAGIC_LUT b with
    | some m => .found m
    | none => if tries != 0 then scanCands (tries - 1) rest else .shutdown

lemma setMagicScan_eq_scanCands (recs : List RawRec) : ∀ tries : Nat,
    setMagicScan tries recs = scanCands tries (candidateBytes recs) := by
  induction recs with
  | nil => intro tries; rfl
  | cons r rest ih =>
    intro tries
    by_cases hc : (r.fromPort == 40200 && r.raw.length == 1) = true
    · simp only [setMagicScan, candidateBytes, List.filter_cons, hc, if_true,
        List.map_cons, scanCands]
      cases hl : MAGIC_LUT (r.raw.headD 0) with
      | some m => simp [hl]
      | none =>
        simp only [hl]
        by_cases ht : (tries != 0) = true
        · rw [if_pos ht, if_pos ht, ih]
          rfl
        · rw [if_neg ht, if_neg ht]
    · simp only [setMagicScan, candidateBytes, List.filter_cons, hc, if_false,
        Bool.false_eq_true]
      exact ih tries

lemma scanCands_shutdown_iff : ∀ (bs : List Nat) (tries : Nat),
    (∀ b ∈ bs, MAGIC_LUT b = none) →
    (scanCands tries bs = .shutdown ↔ tries + 1 ≤ bs.length) := by
  intro bs
  induction bs with
  | nil =>
    intro tries _
    simp [scanCands]
  | cons b rest ih =>
    intro tries hall
    simp only [scanCands, hall b (List.mem_cons_self b rest)]
    by_cases ht : tries = 0
    · subst ht
      simp
    · have htb : (tries != 0) = true := by simpa using ht
      rw [htb, if_pos rfl]
      rw [ih (tries - 1) (fun x hx => hall x (List.mem_cons_of_mem b hx))]
      simp only [List.length_cons]
      omega

lemma scanCands_adopts : ∀ (pre : List Nat) (tries : Nat) (b mg : Nat)
    (post : List Nat), (∀ x ∈ pre, MAGIC_LUT x = none) →
    pre.length ≤ tries → MAGIC_LUT b = some mg →
    scanCands tries (pre ++ b :: post) = .found mg := by
  intro pre
  induction pre with
  | nil =>
    intro tries b mg post _ _ hb
    rw [List.nil_append]
    simp only [scanCands, hb]
  | cons x pre2 ih =>
    intro tries b mg post hall hlen hb
    rw [List.cons_append]
    simp only [scanCands, hall x (List.mem_cons_self x pre2)]
    have ht : (tries != 0) = true := by
      simp only [List.length_cons] at hlen
      simp only [bne_iff_ne, ne_eq]
      omega
    rw [ht, if_pos rfl]
    exact ih (tries - 1) b mg post
      (fun y hy => hall y (List.mem_cons_of_mem x hy))
      (by simp only [List.length_cons] at hlen; omega) hb

/-- A non-matching candidate record: length-1 from port 40200, byte `0xCC`
(not in `MAGIC_LUT`). -/
def c7cand : RawRec := { toPort := 51000, fromPort := 40200, raw := [0xCC] }

/-- A matching candidate record with byte `0xC6`. -/
def c7hit : RawRec := { toPort := 51000, fromPort := 40200, raw := [0xC6] }

end Ruida

/-- C7 counterexample: the claim says discovery fails after at most four
non-matching length-1 reply candidates.  The code tolerates four: a stream of
exactly four non-matching candidates produces no shutdown, and a matching
fifth candidate after four non-matching ones is still adopted; the shutdown
fires only on a fifth non-matching candidate. -/
theorem c7_budget_counterexample :
    Ruida.setMagicScan 4 (List.replicate 4 Ruida.c7cand) = .eof ∧
    Ruida.ScanOut.eof ≠ Ruida.ScanOut.shutdown ∧
    Ruida.setMagicScan 4 (List.replicate 4 Ruida.c7cand ++ [Ruida.c7hit])
      = .found 0x88 ∧
    Ruida.setMagicScan 4 (List.replicate 5 Ruida.c7cand) = .shutdown := by
  refine ⟨by decide, by decide, by decide, by decide⟩

/-- C7 amended: the scan ignores every record that is not a length-1 record
from port 40200 (it reduces to a scan of the candidate bytes); it adopts the
mapped magic at the first candidate byte in the lookup table provided at most
four non-matching candidates precede it; and the terminal shutdown occurs iff
the non-matching candidates number at least five (four are tolerated). -/
theorem c7_magic_scan_amended (recs : List Ruida.RawRec) (bs pre post : List Nat)
    (b mg : Nat) :
    (Ruida.setMagicScan 4 recs
       = Ruida.scanCands 4 (Ruida.candidateBytes recs)) ∧
    ((∀ x ∈ bs, Ruida.MAGIC_LUT x = none) →
      (Ruida.scanCands 4 bs = .shutdown ↔ 5 ≤ bs.length)) ∧
    ((∀ x ∈ pre, Ruida.MAGIC_LUT x = none) → pre.length ≤ 4 →
      Ruida.MAGIC_LUT b = some mg →
      Ruida.scanCands 4 (pre ++ b :: post) = .found mg) :=
  ⟨Ruida.setMagicScan_eq_scanCands recs 4,
   Ruida.scanCands_shutdown_iff bs 4,
   fun h1 h2 h3 => Ruida.scanCands_adopts pre 4 b mg post h1 h2 h3⟩

/-- Witness for C7 amended: reduction on a concrete stream, shutdown on five
non-matching candidate bytes, adoption after four. -/
theorem c7_magic_scan_amended_witness :
    (Ruida.setMagicScan 4 [Ruida.c7cand, Ruida.c10e]
       = Ruida.scanCands 4 (Ruida.candidateBytes [Ruida.c7cand, Ruida.c10e])) ∧
    (Ruida.scanCands 4 (List.replicate 5 0xCC) = .shutdown ↔
      5 ≤ (List.replicate 5 (0xCC : Nat)).length) ∧
    Ruida.scanCands 4 (List.replicate 4 0xCC ++ 0xC6 :: []) = .found 0x88 :=
  ⟨(c7_magic_scan_amended [Ruida.c7cand, Ruida.c10e] [] [] [] 0 0).1,
   (c7_magic_scan_amended [] (List.replicate 5 0xCC) [] [] 0 0).2.1 (by decide),
   (c7_magic_scan_amended [] [] (List.replicate 4 0xCC) [] 0xC6 0x88).2.2
     (by decide) (by decide) (by decide)⟩

namespace Ruida

/-!  ## Parameter decoder (`RdDecoder`, src/ruida_parser.py lines 514-723)

`prime` resolves the decoder by name with `getattr(self, f'rd_{spec[1]}')`.
Only the methods `rd_int7`, `rd_uint7`, `rd_bool`, `rd_int14`, `rd_uint14`,
`rd_int35`, `rd_uint35` and `rd_tbd` exist; the methods for cstring, power,
speed, frequency and time are named without the `rd_` text, so priming those
specs raises `AttributeError` (modelled as `none`), as does the
`RAPID_OPTION` spec whose decoder slot is a function object.  -/

/-- Decoded value of a parameter (`self.value`).  Python floats never arise
in the embedding because the float-producing decoders cannot be resolved by
`prime` (see above). -/
inductive RdValue where
  | ival (i : Int)
  | nval (n : Nat)
  | bval (b : Bool)
  | sval (s : String)
  deriving Repr, DecidableEq

/-- The decoder methods reachable through `getattr`. -/
inductive DecKind where
  | int7 | uint7 | bool7 | int14 | uint14 | int35 | uint35 | tbd
  deriving Repr, DecidableEq

/-- `getattr(self, 'rd_' + name)`: which names resolve to a method. -/
def resolveDecoder (name : String) : Option DecKind :=
  if name = "int7" then some .int7
  else if name = "uint7" then some .uint7
  else if name = "bool" then some .bool7
  else if name = "int14" then some .int14
  else if name = "uint14" then some .uint14
  else if name = "int35" then some .int35
  else if name = "uint35" then some .uint35
  else if name = "tbd" then some .tbd
  else none

/-- The decoder slot of a parameter spec: a name string for most specs, a
function object for `RAPID_OPTION` (whose formatted `rd_...` name never
resolves). -/
inductive DecField where
  | str (s : String)
  | pyfun (s : String)
  deriving Repr, DecidableEq

/-- A parameter spec tuple `(format, decoder, rd_type)`. -/
structure ParamSpec where
  fmt : String
  dec : DecField
  typ : String
  deriving Repr, DecidableEq

/-- `RD_TYPES` (src/ruida_parser.py lines 25-38): bits and byte count per
basic type. -/
def RD_TYPES (t : String) : Option (Int × Int) :=
  if t = "bool_7" then some (7, 1)
  else if t = "int_7" then some (7, 1)
  else if t = "uint_7" then some (7, 1)
  else if t = "int_14" then some (14, 2)
  else if t = "uint_14" then some (14, 2)
  else if t = "int_35" then some (32, 5)
  else if t = "uint_35" then some (32, 5)
  else if t = "cstring" then some (7, 1)
  else if t = "tbd" then some (-1, -1)
  else none

/-- Lowercase hex digit. -/
def hexDigitLower (n : Nat) : Char :=
  if n < 10 then Char.ofNat (48 + n) else Char.ofNat (87 + n)

/-- Uppercase hex digit. -/
def hexDigitUpper (n : Nat) : Char :=
  if n < 10 then Char.ofNat (48 + n) else Char.ofNat (55 + n)

/-- Hex digits of `n` (most significant first), uppercase, at least `w`
digits: Python's `format(n, '0<w>X')` for nonnegative `n`. -/
def toHexPad (w : Nat) (n : Nat) : String :=
  let rec go (fuel : Nat) (n : Nat) (acc : List Char) : List Char :=
    match fuel with
    | 0 => acc
    | fuel + 1 =>
      if n = 0 then acc
      else go fuel (n / 16) (hexDigitUpper (n % 16) :: acc)
  let ds := go 64 n []
  let ds := if ds.isEmpty then ['0'] else ds
  let pad := List.replicate (w - ds.length) '0'
  String.mk (pad ++ ds)

/-- `bytearray.hex()`: lowercase two-digit pairs. -/
def bytesHex (data : List Nat) : String :=
  String.mk (data.foldr
    (fun b acc => hexDigitLower (b / 16 % 16) :: hexDigitLower (b % 16) :: acc) [])

/-- `str(value)` for the reachable value shapes. -/
def renderVal : RdValue → String
  | .ival i => toString i
  | .nval n => toString n
  | .bval b => if b then "True" else "False"
  | .sval s => s

/-- Render one format spec (the text between the braces).  The reachable
specs are the empty spec and the fixed-width uppercase-hex specs; float
specs are unreachable because their decoders never prime. -/
def renderSpec (spec : String) (v : RdValue) : String :=
  if spec = ":02X" ∨ spec = ":04X" ∨ spec = ":08X" then
    match v with
    | .nval n => toHexPad (if spec = ":02X" then 2 else if spec = ":04X" then 4 else 8) n
    | .ival i => toHexPad (if spec = ":02X" then 2 else if spec = ":04X" then 4 else 8) i.toNat
    | v => renderVal v
  else renderVal v

/-- The opening format brace character. -/
def braceOpen : Char := Char.ofNat 123

/-- The closing format brace character. -/
def braceClose : Char := Char.ofNat 125

/-- Split a character list at the first closing brace: the format spec and
the remainder. -/
def takeSpec : List Char → List Char × List Char
  | [] => ([], [])
  | c :: rest =>
    if c = braceClose then ([], rest)
    else
      let p := takeSpec rest
      (c :: p.1, p.2)

/-- Characters of the formatted string: copy text, replace the single
brace-delimited placeholder with the rendered value. -/
def pyFormatAux : List Char → RdValue → List Char
  | [], _ => []
  | c :: rest, v =>
    if c = braceOpen then
      let p := takeSpec rest
      (renderSpec (String.mk p.1) v).data ++ p.2
    else c :: pyFormatAux rest v

/-- `format.format(value)` for the single-placeholder format strings of the
parameter spec tables. -/
def pyFormat (fmt : String) (v : RdValue) : String :=
  String.mk (pyFormatAux fmt.data v)

/-- `RdDecoder` state. -/
structure RdDec where
  accumulating : Bool
  fmt : String
  rdType : String
  decKind : Option DecKind
  data : List Nat
  value : Option RdValue
  datum : Option Nat
  length : Int
  rem : Int
  deriving Repr, DecidableEq

/-- `RdDecoder.__init__`. -/
def initRd : RdDec :=
  { accumulating := false, fmt := "", rdType := "", decKind := none
    data := [], value := none, datum := none, length := 0, rem := 0 }

/-- `RdDecoder.prime` (lines 653-679).  `none` models the exceptions raised
for malformed table entries: `AttributeError` from `getattr` when the
decoder name does not resolve, and `KeyError` when no length override is
given and the type is not in `RD_TYPES`. -/
def primeRd (d : RdDec) (spec : ParamSpec) (length : Option Int) : Option RdDec :=
  match (match spec.dec with
         | .str s => resolveDecoder s
         | .pyfun _ => none) with
  | none => none
  | some k =>
    match (match length with
           | some l => some l
           | none => (RD_TYPES spec.typ).map (fun rt => rt.2)) with
    | none => none
    | some l =>
      some { d with fmt := spec.fmt, rdType := spec.typ, data := [],
                    value := none, datum := none, decKind := some k,
                    length := l, rem := l }

/-- The value computation of the decoder methods `rd_*` (lines 558-649):
each sets `self.value` from the accumulated bytes (and the primed length for
the multi-byte integers) and returns the formatted string. -/
def runDecoder (k : DecKind) (data : List Nat) (lenNat : Nat) : RdValue :=
  match k with
  | .int7 =>
    let v := data.getD 0 0
    .ival (if v &&& 0x40 != 0 then -(v : Int) else (v : Int))
  | .uint7 => .nval (data.getD 0 0)
  | .bool7 => .bval (data.getD 0 0 != 0)
  | .int14 => .ival (to_int data lenNat)
  | .uint14 => .nval (to_uint data lenNat)
  | .int35 => .ival (to_int data lenNat)
  | .uint35 => .nval (to_uint data lenNat)
  | .tbd => .sval (bytesHex data)

/-- Outcome of one `RdDecoder.step`. -/
inductive StepOut where
  | more
  | done (s : String)
  | err
  deriving Repr, DecidableEq

/-- The protocol diagnostics emitted by the two leading checks of
`RdDecoder.step` (lines 700-710). -/
def stepDiags (datum : Nat) : List String :=
  (if datum &&& CMD_MASK != 0 then ["datum: Should not have bit 7 set."]
   else []) ++
  (if datum > CMD_MASK - 1 then ["datum: Should not be greater than 128."]
   else [])

/-- `RdDecoder.step` (lines 681-723).  The two leading checks emit protocol
diagnostics (returned in the list) but do not stop the step: the datum is
appended to the accumulator regardless.  `.err` models calling a `None`
decoder (only possible before any successful `prime`). -/
def stepRd (d : RdDec) (datum : Nat) (remaining : Option Int) :
    RdDec × StepOut × List String :=
  let diags := stepDiags datum
  let d := { d with accumulating := true, datum := some datum,
                    data := d.data ++ [datum] }
  let d := { d with rem := match remaining with
                           | some r => r
                           | none => d.rem - 1 }
  if d.rem > 0 then (d, .more, diags)
  else
    let d := { d with accumulating := false }
    match d.decKind with
    | none => (d, .err, diags)
    | some k =>
      let v := runDecoder k d.data d.length.toNat
      ({ d with value := some v }, .done (pyFormat d.fmt v), diags)

/-- Repeated `step` with no remaining override, collecting the outcome and
diagnostics of every step. -/
def runRd (d : RdDec) : List Nat → RdDec × List (StepOut × List String)
  | [] => (d, [])
  | b :: rest =>
    let s := stepRd d b none
    let f := runRd s.1 rest
    (f.1, (s.2.1, s.2.2) :: f.2)

end Ruida

namespace Ruida

/-!  ## Parameter spec constants (src/ruida_parser.py lines 70-110)  -/

def INT7 : ParamSpec := { fmt := "\x7b\x7d", dec := .str "int7", typ := "int_7" }
def UINT7 : ParamSpec := { fmt := "\x7b\x7d", dec := .str "uint7", typ := "uint_7" }
def HEX7 : ParamSpec := { fmt := "\x7b:02X\x7d", dec := .str "uint7", typ := "uint_7" }
def BOOL7 : ParamSpec := { fmt := "\x7b\x7d", dec := .str "bool", typ := "bool_7" }
def INT14 : ParamSpec := { fmt := "\x7b\x7d", dec := .str "int14", typ := "int_14" }
def UINT14 : ParamSpec := { fmt := "\x7b\x7d", dec := .str "uint14", typ := "uint_14" }
def HEX14 : ParamSpec := { fmt := "\x7b:04X\x7d", dec := .str "uint14", typ := "uint_14" }
def INT35 : ParamSpec := { fmt := "\x7b\x7d", dec := .str "int35", typ := "int_35" }
def UINT35 : ParamSpec := { fmt := "\x7b\x7d", dec := .str "uint35", typ := "uint_35" }
def HEX35 : ParamSpec := { fmt := "\x7b:08X\x7d", dec := .str "uint35", typ := "uint_35" }
def CSTRING : ParamSpec := { fmt := "\x7b\x7d", dec := .str "cstring", typ := "cstring" }
def FNAME : ParamSpec := { fmt := "File:\x7b\x7d", dec := .str "cstring", typ := "cstring" }
def FNUM : ParamSpec := { fmt := "FNum: \x7b\x7d", dec := .str "uint14", typ := "uint_14" }
def ENAME : ParamSpec := { fmt := "Elem:\x7b\x7d", dec := .str "cstring", typ := "cstring" }
def PART : ParamSpec := { fmt := "Part:\x7b\x7d", dec := .str "int7", typ := "int_7" }
def LASER : ParamSpec := { fmt := "Laser:\x7b\x7d", dec := .str "int7", typ := "int_7" }
def VALUE : ParamSpec := { fmt := "\x7b\x7d", dec := .str "int7", typ := "int_7" }
def RAPID_OPTION : ParamSpec :=
  { fmt := "Option:\x7b\x7d", dec := .pyfun "rapid_option", typ := "int_7" }
def COLOR : ParamSpec := { fmt := "Color:#\x7b:06X\x7d", dec := .str "uint35", typ := "uint_35" }
def MEMORY : ParamSpec := { fmt := "Addr:\x7b:04X\x7d", dec := .str "uint14", typ := "uint_14" }
def SETTING : ParamSpec := { fmt := "Set:\x7b:08X\x7d", dec := .str "uint35", typ := "uint_35" }
def ID : ParamSpec := { fmt := "ID:\x7b\x7d", dec := .str "uint14", typ := "uint_14" }
def DIRECTION : ParamSpec := { fmt := "Dir:\x7b\x7d", dec := .str "int7", typ := "int_7" }
def ABSCOORD : ParamSpec := { fmt := "\x7b\x7dum", dec := .str "int35", typ := "int_35" }
def XABSCOORD : ParamSpec := { fmt := "X=\x7b\x7dum", dec := .str "int35", typ := "int_35" }
def YABSCOORD : ParamSpec := { fmt := "Y=\x7b\x7dum", dec := .str "int35", typ := "int_35" }
def ZABSCOORD : ParamSpec := { fmt := "Z=\x7b\x7dum", dec := .str "int35", typ := "int_35" }
def AABSCOORD : ParamSpec := { fmt := "A=\x7b\x7dum", dec := .str "int35", typ := "int_35" }
def UABSCOORD : ParamSpec := { fmt := "U=\x7b\x7dum", dec := .str "int35", typ := "int_35" }
def RELCOORD : ParamSpec := { fmt := "\x7b\x7dum", dec := .str "int35", typ := "int_35" }
def XRELCOORD : ParamSpec := { fmt := "RelX=\x7b\x7dum", dec := .str "int35", typ := "int_35" }
def YRELCOORD : ParamSpec := { fmt := "RelY=\x7b\x7dum", dec := .str "int35", typ := "int_35" }
def PARSE_POWER : ParamSpec :=
  { fmt := "Power:\x7b:1f\x7d%", dec := .str "power", typ := "uint_14" }
def PARSE_SPEED : ParamSpec :=
  { fmt := "Speed:\x7b:3f\x7dmm/S", dec := .str "speed", typ := "int_35" }
def PARSE_FREQUENCY : ParamSpec :=
  { fmt := "Freq:\x7b:3f\x7dKHz", dec := .str "frequency", typ := "int_35" }
def PARSE_TIME : ParamSpec :=
  { fmt := "\x7b:3f\x7dmS", dec := .str "time", typ := "int_35" }
def TBD : ParamSpec := { fmt := "TBD:\x7b\x7d", dec := .str "tbd", typ := "tbd" }

/-- `REPLY = -1`, the action marker in parameter lists. -/
def REPLY : Int := -1

lemma stepDiags_ne_nil (b : Nat) :
    stepDiags b ≠ [] ↔ (b &&& 0x80 ≠ 0 ∨ 127 < b) := by
  unfold stepDiags CMD_MASK
  by_cases h1 : b &&& 128 ≠ 0 <;> by_cases h2 : 127 < b <;>
    simp [h1, h2] <;> omega

lemma stepRd_more (d : RdDec) (b : Nat) (h : 1 < d.rem) :
    stepRd d b none =
      ({ d with accumulating := true, datum := some b,
                data := d.data ++ [b], rem := d.rem - 1 },
       .more, stepDiags b) := by
  unfold stepRd
  simp only []
  rw [if_pos (by omega)]

lemma stepRd_done (d : RdDec) (b : Nat) (k : DecKind)
    (hk : d.decKind = some k) (h : d.rem ≤ 1) :
    stepRd d b none =
      ({ d with accumulating := false, datum := some b,
                data := d.data ++ [b], rem := d.rem - 1,
                value := some (runDecoder k (d.data ++ [b]) d.length.toNat) },
       .done (pyFormat d.fmt (runDecoder k (d.data ++ [b]) d.length.toNat)),
       stepDiags b) := by
  unfold stepRd
  simp only [hk]
  rw [if_neg (by omega)]

end Ruida

namespace Ruida

lemma primeRd_fields {d : RdDec} {sp : ParamSpec} {l : Option Int} {d1 : RdDec}
    (h : primeRd d sp l = some d1) :
    d1.data = [] ∧ d1.rem = d1.length ∧ ∃ k, d1.decKind = some k := by
  unfold primeRd at h
  split at h
  · exact absurd h (by simp)
  · split at h
    · exact absurd h (by simp)
    · cases h
      exact ⟨rfl, rfl, _, rfl⟩

lemma runRd_nil (d : RdDec) : runRd d [] = (d, []) := rfl

lemma runRd_cons (d : RdDec) (b : Nat) (rest : List Nat) :
    runRd d (b :: rest) =
      ((runRd (stepRd d b none).1 rest).1,
       ((stepRd d b none).2.1, (stepRd d b none).2.2) ::
         (runRd (stepRd d b none).1 rest).2) := rfl

lemma runRd_fixed (k : DecKind) : ∀ (bs : List Nat) (d : RdDec),
    d.decKind = some k → d.rem = (bs.length : Int) → 0 < bs.length →
    (runRd d bs).1.data = d.data ++ bs ∧
    (runRd d bs).2.length = bs.length ∧
    (∀ i, i + 1 < bs.length → ((runRd d bs).2.getD i (.err, [])).1 = .more) ∧
    (∃ s, ((runRd d bs).2.getD (bs.length - 1) (.err, [])).1 = .done s) ∧
    (∀ i, i < bs.length →
      ((((runRd d bs).2.getD i (.err, [])).2 ≠ []) ↔
        (bs.getD i 0 &&& 0x80 ≠ 0 ∨ 127 < bs.getD i 0))) := by
  intro bs
  induction bs with
  | nil => intro d _ _ h; exact absurd h (by simp)
  | cons b rest ih =>
    intro d hk hrem _
    by_cases hr : rest = []
    · subst hr
      have h1 : d.rem ≤ 1 := by simp at hrem; omega
      have hstep := stepRd_done d b k hk h1
      simp only [runRd_cons, runRd_nil, hstep]
      refine ⟨by simp, rfl, by intro i hi; simp at hi, ⟨_, rfl⟩, ?_⟩
      intro i hi
      have : i = 0 := by simpa using hi
      subst this
      simpa using stepDiags_ne_nil b
    · have hlen : 0 < rest.length := List.length_pos.mpr hr
      have h1 : 1 < d.rem := by simp at hrem; omega
      have hstep := stepRd_more d b h1
      have hk' : (stepRd d b none).1.decKind = some k := by rw [hstep]; exact hk
      have hrem' : (stepRd d b none).1.rem = (rest.length : Int) := by
        rw [hstep]
        simp at hrem ⊢
        omega
      obtain ⟨ihd, ihl, ihm, ihdone, ihdiag⟩ := ih (stepRd d b none).1 hk' hrem' hlen
      refine ⟨?_, ?_, ?_, ?_, ?_⟩
      · simp only [runRd_cons]
        rw [ihd, hstep]
        simp
      · simp only [runRd_cons, List.length_cons, ihl]
      · intro i hi
        cases i with
        | zero =>
          simp only [runRd_cons, List.getD_cons_zero]
          rw [hstep]
        | succ n =>
          simp only [runRd_cons, List.getD_cons_succ]
          exact ihm n (by simp at hi; omega)
      · obtain ⟨s, hs⟩ := ihdone
        refine ⟨s, ?_⟩
        have hlast : (b :: rest).length - 1 = (rest.length - 1) + 1 := by
          simp only [List.length_cons]
          omega
        rw [hlast]
        simp only [runRd_cons, List.getD_cons_succ]
        exact hs
      · intro i hi
        cases i with
        | zero =>
          simp only [runRd_cons, List.getD_cons_zero, List.getD_cons_zero]
          rw [hstep]
          simpa using stepDiags_ne_nil b
        | succ n =>
          simp only [runRd_cons, List.getD_cons_succ]
          exact ihdiag n (by simp at hi; omega)

end Ruida

namespace Ruida

/-- The decoder immediately after `prime(INT7)` (one 7-bit signed byte). -/
def c9dec : RdDec :=
  { accumulating := false, fmt := "\x7b\x7d", rdType := "int_7",
    decKind := some .int7, data := [], value := none, datum := none,
    length := 1, rem := 1 }

/-- The decoder immediately after `prime(XABSCOORD)` (5-byte signed 35-bit
coordinate). -/
def c9w : RdDec :=
  { accumulating := false, fmt := "X=\x7b\x7dum", rdType := "int_35",
    decKind := some .int35, data := [], value := none, datum := none,
    length := 5, rem := 5 }

end Ruida

/-- C9 counterexample: a byte with bit 7 set is NOT rejected.  After priming
with `INT7`, stepping the decoder with `0xFF` appends the byte to the
accumulator, completes the parameter with it (producing `-255`), and merely
emits protocol diagnostics. -/
theorem c9_bit7_accumulated_counterexample :
    Ruida.primeRd Ruida.initRd Ruida.INT7 none = some Ruida.c9dec ∧
    (Ruida.stepRd Ruida.c9dec 0xFF none).1.data = [0xFF] ∧
    (Ruida.stepRd Ruida.c9dec 0xFF none).2.1 = .done "-255" ∧
    (Ruida.stepRd Ruida.c9dec 0xFF none).2.2 ≠ [] :=
  ⟨by decide, by decide, by decide, by decide⟩

/-- C9 amended: once primed with a spec (without a remaining override), the
decoder emits a protocol diagnostic for any byte with bit 7 set but still
accumulates it; every byte is appended, the step that completes the declared
byte count returns the formatted string, and every earlier step returns
`None`.  The cstring and the derived power/speed/frequency/time decoders can
never be primed at all: `getattr(self, 'rd_...')` fails for them, so the
completion law applies to the fixed-length numeric types. -/
theorem c9_decoder_step_amended (sp : Ruida.ParamSpec) (d1 : Ruida.RdDec)
    (bs : List Nat) (hp : Ruida.primeRd Ruida.initRd sp none = some d1)
    (hlen : (bs.length : Int) = d1.length) (hpos : 0 < bs.length) :
    (Ruida.runRd d1 bs).1.data = bs ∧
    (∀ i, i + 1 < bs.length →
      ((Ruida.runRd d1 bs).2.getD i (.err, [])).1 = .more) ∧
    (∃ s, ((Ruida.runRd d1 bs).2.getD (bs.length - 1) (.err, [])).1 = .done s) ∧
    (∀ i, i < bs.length →
      ((((Ruida.runRd d1 bs).2.getD i (.err, [])).2 ≠ []) ↔
        (bs.getD i 0 &&& 0x80 ≠ 0 ∨ 127 < bs.getD i 0))) ∧
    Ruida.resolveDecoder "cstring" = none ∧
    Ruida.resolveDecoder "power" = none ∧
    Ruida.resolveDecoder "speed" = none ∧
    Ruida.resolveDecoder "frequency" = none ∧
    Ruida.resolveDecoder "time" = none := by
  obtain ⟨hdata, hrem, k, hk⟩ := Ruida.primeRd_fields hp
  have hrem' : d1.rem = (bs.length : Int) := by rw [hrem, ← hlen]
  obtain ⟨h1, h2, h3, h4, h5⟩ := Ruida.runRd_fixed k bs d1 hk hrem' hpos
  exact ⟨by rw [h1, hdata]; simp, h3, h4, h5, rfl, rfl, rfl, rfl, rfl⟩

/-- Witness for C9 amended: priming `XABSCOORD` and feeding five bytes, one
of which has bit 7 set. -/
theorem c9_decoder_step_amended_witness :
    (Ruida.runRd Ruida.c9w [0x00, 0x01, 0x82, 0x03, 0x04]).1.data
      = [0x00, 0x01, 0x82, 0x03, 0x04] ∧
    ((Ruida.runRd Ruida.c9w [0x00, 0x01, 0x82, 0x03, 0x04]).2.getD 0
        (.err, [])).1 = .more ∧
    (∃ s, ((Ruida.runRd Ruida.c9w [0x00, 0x01, 0x82, 0x03, 0x04]).2.getD 4
        (.err, [])).1 = .done s) ∧
    (((Ruida.runRd Ruida.c9w [0x00, 0x01, 0x82, 0x03, 0x04]).2.getD 2
        (.err, [])).2 ≠ [] ↔
      ((0x82 : Nat) &&& 0x80 ≠ 0 ∨ 127 < (0x82 : Nat))) :=
  ⟨(c9_decoder_step_amended Ruida.XABSCOORD Ruida.c9w
      [0x00, 0x01, 0x82, 0x03, 0x04] (by decide) (by decide) (by decide)).1,
   (c9_decoder_step_amended Ruida.XABSCOORD Ruida.c9w
      [0x00, 0x01, 0x82, 0x03, 0x04] (by decide) (by decide) (by decide)).2.1 0 (by decide),
   (c9_decoder_step_amended Ruida.XABSCOORD Ruida.c9w
      [0x00, 0x01, 0x82, 0x03, 0x04] (by decide) (by decide) (by decide)).2.2.1,
   (c9_decoder_step_amended Ruida.XABSCOORD Ruida.c9w
      [0x00, 0x01, 0x82, 0x03, 0x04] (by decide) (by decide) (by decide)).2.2.2.1 2
     (by decide)⟩

namespace Ruida

/-!  ## Command tables (src/ruida_parser.py lines 124-512)

The Python dictionaries hold heterogeneous values: strings (bare labels),
nested dicts (sub-command tables), tuples (parameter spec lists) and -- in
the keypad table `KT` -- lists.  `CTVal` mirrors that tagged shape; the
parser dispatches on the Python type of the value. -/

/-- An element of a parameter spec tuple: the label string, a parameter
spec, or the integer `REPLY` action marker. -/
inductive PElem where
  | str (s : String)
  | spec (ps : ParamSpec)
  | marker (i : Int)
  deriving Repr, DecidableEq

/-- A value of a command table. -/
inductive CTVal where
  | lbl (s : String)
  | tbl (t : List (Nat × CTVal))
  | tup (l : List PElem)
  | pylist (tag : String) (keys : List (Nat × String))

/-- `KT_KEYS` (lines 124-143). -/
def KT_KEYS : List (Nat × String) :=
  [(0x01, "X_MINUS"), (0x02, "X_PLUS"), (0x03, "Y_PLUS"), (0x04, "Y_MINUS"),
   (0x05, "PULSE"), (0x06, "PAUSE"), (0x07, "ESCAPE"), (0x08, "ORIGIN"),
   (0x09, "STOP"), (0x0A, "Z_PLUS"), (0x0B, "Z_MINUS"), (0x0C, "U_PLUS"),
   (0x0D, "U_MINUS"), (0x0E, "?"), (0x0F, "TRACE"), (0x10, "?"),
   (0x11, "SPEED"), (0x12, "LASER_GATE")]

/-- `KT` (lines 146-150): the values of `0x50`/`0x51` are Python lists. -/
def KT : List (Nat × CTVal) :=
  [(0x50, .pylist "Press:  " KT_KEYS),
   (0x51, .pylist "Release:" KT_KEYS),
   (0x53, .tbl [(0x00, .lbl "INTERFACE_FRAME")])]

/-- `CT`, the root command table (lines 315-512). -/
def CT : List (Nat × CTVal) :=
  [(0x80, .tbl [(0x00, .tup [.str "AXIS_X_MOVE", .spec XABSCOORD]),
                (0x08, .tup [.str "AXIS_Z_MOVE", .spec YABSCOORD])]),
   (0x88, .tup [.str "MOVE_ABS_XY", .spec XABSCOORD, .spec YABSCOORD]),
   (0x89, .tup [.str "MOVE_REL_XY", .spec XRELCOORD, .spec YRELCOORD]),
   (0x8A, .tup [.str "MOVE_REL_X", .spec XRELCOORD]),
   (0x8B, .tup [.str "MOVE_REL_Y", .spec YRELCOORD]),
   (0xA0, .tbl [(0x00, .tup [.str "AXIS_A_MOVE", .spec AABSCOORD]),
                (0x08, .tup [.str "AXIS_U_MOVE", .spec UABSCOORD])]),
   (0xA5, .tbl KT),
   (0xA8, .tup [.str "CUT_ABS_XY", .spec XABSCOORD, .spec YABSCOORD]),
   (0xA9, .tup [.str "CUT_REL_XY", .spec XRELCOORD, .spec YRELCOORD]),
   (0xAA, .tup [.str "CUT_REL_X", .spec XRELCOORD]),
   (0xAB, .tup [.str "CUT_REL_Y", .spec YRELCOORD]),
   (0xC0, .tup [.str "IMD_POWER_2", .spec PARSE_POWER]),
   (0xC1, .tup [.str "END_POWER_2", .spec PARSE_POWER]),
   (0xC2, .tup [.str "IMD_POWER_3", .spec PARSE_POWER]),
   (0xC3, .tup [.str "IMD_POWER_4", .spec PARSE_POWER]),
   (0xC4, .tup [.str "END_POWER_3", .spec PARSE_POWER]),
   (0xC5, .tup [.str "END_POWER_4", .spec PARSE_POWER]),
   (0xC6, .tbl
     [(0x01, .tup [.str "MIN_POWER_1", .spec PARSE_POWER]),
      (0x02, .tup [.str "MAX_POWER_1", .spec PARSE_POWER]),
      (0x05, .tup [.str "MIN_POWER_3", .spec PARSE_POWER]),
      (0x06, .tup [.str "MAX_POWER_3", .spec PARSE_POWER]),
      (0x07, .tup [.str "MIN_POWER_4", .spec PARSE_POWER]),
      (0x08, .tup [.str "MAX_POWER_4", .spec PARSE_POWER]),
      (0x10, .tup [.str "LASER_INTERVAL", .spec PARSE_TIME]),
      (0x11, .tup [.str "ADD_DELAY", .spec PARSE_TIME]),
      (0x12, .tup [.str "LASER_ON_DELAY", .spec PARSE_TIME]),
      (0x13, .tup [.str "LASER_OFF_DELAY", .spec PARSE_TIME]),
      (0x15, .tup [.str "LASER_ON_DELAY2", .spec PARSE_TIME]),
      (0x16, .tup [.str "LASER_OFF_DELAY2", .spec PARSE_TIME]),
      (0x31, .tup [.str "MIN_POWER_1_PART", .spec PART, .spec PARSE_POWER]),
      (0x32, .tup [.str "MAX_POWER_1_PART", .spec PART, .spec PARSE_POWER]),
      (0x35, .tup [.str "MIN_POWER_3_PART", .spec PART, .spec PARSE_POWER]),
      (0x36, .tup [.str "MAX_POWER_3_PART", .spec PART, .spec PARSE_POWER]),
      (0x37, .tup [.str "MIN_POWER_4_PART", .spec PART, .spec PARSE_POWER]),
      (0x38, .tup [.str "MAX_POWER_4_PART", .spec PART, .spec PARSE_POWER]),
      (0x41, .tup [.str "MIN_POWER_2_PART", .spec PART, .spec PARSE_POWER]),
      (0x42, .tup [.str "MAX_POWER_2_PART", .spec PART, .spec PARSE_POWER]),
      (0x50, .tup [.str "THROUGH_POWER_1", .spec PARSE_POWER]),
      (0x51, .tup [.str "THROUGH_POWER_2", .spec PARSE_POWER]),
      (0x55, .tup [.str "THROUGH_POWER_3", .spec PARSE_POWER]),
      (0x56, .tup [.str "THROUGH_POWER_4", .spec PARSE_POWER]),
      (0x60, .tup [.str "FREQUENCY_PART", .spec LASER, .spec PART,
                   .spec PARSE_FREQUENCY])]),
   (0xC7, .tup [.str "IMD_POWER_1", .spec PARSE_POWER]),
   (0xC8, .tup [.str "END_POWER_1", .spec PARSE_POWER]),
   (0xC9, .tbl
     [(0x02, .tup [.str "SPEED_LASER_1", .spec PARSE_SPEED]),
      (0x03, .tup [.str "SPEED_AXIS", .spec PARSE_SPEED]),
      (0x04, .tup [.str "SPEED_LASER_1_PART", .spec PART, .spec PARSE_SPEED]),
      (0x05, .tup [.str "FORCE_ENG_SPEED", .spec PARSE_SPEED]),
      (0x06, .tup [.str "SPEED_AXIS_MOVE", .spec PARSE_SPEED])]),
   (0xCA, .tbl
     [(0x01, .tbl
       [(0x00, .lbl "LAYER_END"), (0x01, .lbl "WORK_MODE_1"),
        (0x02, .lbl "WORK_MODE_2"), (0x03, .lbl "WORK_MODE_3"),
        (0x04, .lbl "WORK_MODE_4"), (0x05, .lbl "WORK_MODE_6"),
        (0x10, .lbl "LASER_DEVICE_0"), (0x11, .lbl "LASER_DEVICE_1"),
        (0x12, .lbl "AIR_ASSIST_OFF"), (0x13, .lbl "AIR_ASSIST_ON"),
        (0x14, .lbl "DB_HEAD"), (0x30, .lbl "EN_LASER_2_OFFSET_0"),
        (0x31, .lbl "EN_LASER_2_OFFSET_1"), (0x55, .lbl "WORK_MODE_5")]),
      (0x02, .tup [.str "LAYER_NUMBER_PART", .spec PART]),
      (0x03, .tup [.str "EN_LASER_TUBE_START", .spec PART]),
      (0x04, .tup [.str "X_SIGN_MAP", .spec VALUE]),
      (0x05, .tup [.str "LAYER_COLOR", .spec COLOR]),
      (0x06, .tup [.str "LAYER_COLOR_PART", .spec PART, .spec COLOR]),
      (0x10, .tup [.str "EN_EX_IO", .spec VALUE]),
      (0x22, .tup [.str "MAX_LAYER_PART", .spec PART]),
      (0x30, .tup [.str "U_FILE_ID", .spec ID]),
      (0x40, .tup [.str "ZU_MAP", .spec VALUE])]),
   (0xD7, .lbl "EOF"),
   (0xD8, .tbl
     [(0x00, .lbl "START_PROCESS"), (0x01, .lbl "STOP_PROCESS"),
      (0x02, .lbl "PAUSE_PROCESS"), (0x03, .lbl "RESTORE_PROCESS"),
      (0x10, .lbl "REF_POINT_2"), (0x11, .lbl "REF_POINT_1"),
      (0x12, .lbl "CURRENT_POSITION"), (0x20, .lbl "KEYDOWN_X_LEFT"),
      (0x21, .lbl "KEYDOWN_X_RIGHT"), (0x22, .lbl "KEYDOWN_Y_TOP"),
      (0x23, .lbl "KEYDOWN_Y_BOTTOM"), (0x24, .lbl "KEYDOWN_Z_UP"),
      (0x25, .lbl "KEYDOWN_Z_DOWN"), (0x26, .lbl "KEYDOWN_U_FORWARD"),
      (0x27, .lbl "KEYDOWN_U_BACKWARDS"), (0x2A, .lbl "HOME_XY"),
      (0x2C, .lbl "HOME_Z"), (0x2D, .lbl "HOME_U"), (0x2E, .lbl "FOCUS_Z"),
      (0x30, .lbl "KEYUP_LEFT"), (0x31, .lbl "KEYUP_RIGHT"),
      (0x32, .lbl "KEYUP_Y_TOP"), (0x33, .lbl "KEYUP_Y_BOTTOM"),
      (0x34, .lbl "KEYUP_Z_UP"), (0x35, .lbl "KEYUP_Z_DOWN"),
      (0x36, .lbl "KEYUP_U_FORWARD"), (0x37, .lbl "KEYUP_U_BACKWARDS")]),
   (0xD9, .tbl
     [(0x00, .tup [.str "RAPID_MOVE_X", .spec RAPID_OPTION, .spec XABSCOORD]),
      (0x01, .tup [.str "RAPID_MOVE_Y", .spec RAPID_OPTION, .spec YABSCOORD]),
      (0x02, .tup [.str "RAPID_MOVE_Z", .spec RAPID_OPTION, .spec ZABSCOORD]),
      (0x03, .tup [.str "RAPID_MOVE_U", .spec RAPID_OPTION, .spec UABSCOORD]),
      (0x0F, .tup [.str "RAPID_FEED_AXIS_MOVE", .spec RAPID_OPTION]),
      (0x10, .tup [.str "RAPID_MOVE_XY", .spec RAPID_OPTION, .spec XABSCOORD,
                   .spec YABSCOORD]),
      (0x30, .tup [.str "RAPID_MOVE_XYU", .spec RAPID_OPTION, .spec XABSCOORD,
                   .spec YABSCOORD, .spec UABSCOORD])]),
   (0xDA, .tbl
     [(0x00, .tup [.str "GET_SETTING", .spec MEMORY, .marker REPLY, .spec UINT7]),
      (0x01, .tup [.str "SET_SETTING", .spec MEMORY, .spec SETTING, .spec SETTING])]),
   (0xE5, .tbl
     [(0x00, .tup [.str "DOCUMENT_FILE_UPLOAD", .spec FNUM, .spec UINT35,
                   .spec UINT35]),
      (0x02, .lbl "DOCUMENT_FILE_END"),
      (0x05, .lbl "SET_FILE_SUM")]),
   (0xE7, .tbl
     [(0x00, .lbl "DOCUMENT_FILE_UPLOAD"),
      (0x01, .tup [.str "SET_FILE_NAME", .spec FNAME]),
      (0x03, .tup [.str "PROCESS_TOP_LEFT", .spec XABSCOORD, .spec YABSCOORD]),
      (0x04, .tup [.str "PROCESS_REPEAT", .spec INT14, .spec INT14, .spec INT14,
                   .spec INT14, .spec INT14, .spec INT14, .spec INT14]),
      (0x05, .tup [.str "ARRAY_DIRECTION", .spec DIRECTION]),
      (0x06, .tup [.str "FEED_REPEAT", .spec UINT35, .spec UINT35]),
      (0x07, .tup [.str "PROCESS_BOTTOM_RIGHT", .spec XABSCOORD, .spec YABSCOORD]),
      (0x08, .tup [.str "ARRAY_REPEAT", .spec INT14, .spec INT14, .spec INT14,
                   .spec INT14, .spec INT14, .spec INT14, .spec INT14]),
      (0x09, .tup [.str "FEED_LENGTH", .spec INT35]),
      (0x0A, .lbl "FEED_INFO"),
      (0x0B, .tup [.str "ARRAY_EN_MIRROR_CUT", .spec UINT7]),
      (0x13, .tup [.str "ARRAY_MIN_POINT", .spec XABSCOORD, .spec YABSCOORD]),
      (0x17, .tup [.str "ARRAY_MAX_POINT", .spec XABSCOORD, .spec YABSCOORD]),
      (0x23, .tup [.str "ARRAY_ADD", .spec XABSCOORD, .spec YABSCOORD]),
      (0x24, .tup [.str "ARRAY_MIRROR", .spec UINT7]),
      (0x35, .tup [.str "BLOCK_X_SIZE", .spec XABSCOORD, .spec YABSCOORD]),
      (0x36, .tup [.str "SET_FILE_EMPTY", .spec UINT7]),
      (0x37, .lbl "ARRAY_EVEN_DISTANCE"),
      (0x38, .lbl "SET_FEED_AUTO_PAUSE"),
      (0x3A, .lbl "UNION_BLOCK_PROPERTY"),
      (0x50, .tup [.str "DOCUMENT_MIN_POINT", .spec XABSCOORD, .spec YABSCOORD]),
      (0x51, .tup [.str "DOCUMENT_MAX_POINT", .spec XABSCOORD, .spec YABSCOORD]),
      (0x52, .tup [.str "PART_MIN_POINT", .spec PART, .spec XABSCOORD,
                   .spec YABSCOORD]),
      (0x53, .tup [.str "PART_MAX_POINT", .spec PART, .spec XABSCOORD,
                   .spec YABSCOORD]),
      (0x54, .tup [.str "PEN_OFFSET: Axis=", .spec UINT7, .spec RELCOORD]),
      (0x55, .tup [.str "LAYER_OFFSET: Axis=", .spec UINT7, .spec RELCOORD]),
      (0x60, .tup [.str "SET_CURRENT_ELEMENT_INDEX", .spec UINT7]),
      (0x61, .tup [.str "PART_MIN_POINT_EX", .spec PART, .spec XABSCOORD,
                   .spec YABSCOORD]),
      (0x62, .tup [.str "PART_MAX_POINT_EX", .spec PART, .spec XABSCOORD,
                   .spec XABSCOORD])]),
   (0xE8, .tbl
     [(0x00, .tup [.str "DELETE_DOCUMENT", .spec UINT35, .spec UINT35]),
      (0x01, .tup [.str "DOCUMENT_NUMBER", .spec UINT14]),
      (0x02, .lbl "FILE_TRANSFER"),
      (0x03, .tup [.str "SELECT_DOCUMENT", .spec UINT7]),
      (0x04, .lbl "CALCULATE_DOCUMENT_TIME")]),
   (0xEA, .tup [.str "ARRAY_START", .spec UINT7]),
   (0xEB, .lbl "ARRAY_END"),
   (0xF0, .lbl "REF_POINT_SET"),
   (0xF1, .tbl
     [(0x00, .tup [.str "ELEMENT_MAX_INDEX", .spec UINT7]),
      (0x01, .tup [.str "ELEMENT_NAME_MAX_INDEX", .spec UINT7]),
      (0x02, .tup [.str "ENABLE_BLOCK_CUTTING", .spec UINT7]),
      (0x03, .tup [.str "DISPLAY_OFFSET", .spec XABSCOORD, .spec YABSCOORD]),
      (0x04, .tup [.str "FEED_AUTO_CALC", .spec UINT7])]),
   (0xF2, .tbl
     [(0x00, .tup [.str "ELEMENT_INDEX", .spec UINT7]),
      (0x01, .tup [.str "ELEMENT_NAME_INDEX", .spec UINT7]),
      (0x02, .tup [.str "ELEMENT_NAME", .spec ENAME]),
      (0x03, .tup [.str "ELEMENT_ARRAY_MIN_POINT", .spec XABSCOORD,
                   .spec YABSCOORD]),
      (0x04, .tup [.str "ELEMENT_ARRAY_MAX_POINT", .spec XABSCOORD,
                   .spec YABSCOORD]),
      (0x05, .tup [.str "ELEMENT_ARRAY", .spec INT14, .spec INT14, .spec INT14,
                   .spec INT14, .spec INT14, .spec INT14, .spec INT14]),
      (0x06, .tup [.str "ELEMENT_ARRAY_ADD", .spec XABSCOORD, .spec YABSCOORD]),
      (0x07, .tup [.str "ELEMENT_ARRAY_MIRROR", .spec UINT7])])]

/-- `datum in self._ct`, then `self._ct[datum]`, as one lookup. -/
def lookupCT (t : List (Nat × CTVal)) (b : Nat) : Option CTVal :=
  (t.find? (fun e => e.1 == b)).map (fun e => e.2)

end Ruida

namespace Ruida

/-!  ## Parser state machine (`RdParser`, src/ruida_parser.py lines 725-1089)

Each state `s` has a transition handler `_tr_s` (run by `_enter_state`) and a
step handler `_st_s`.  Python runtime errors are modelled with
`Except PyError`:

* `_format_decoded` appends to `self.decoded`, which `_h_prepare_for_command`
  sets to `None`, so appending a label raises `TypeError`; the method also
  has no return statement, so its value is always `None`.
* `_h_check_for_reply` formats an f-string that references the undefined
  local name `_next` in its tuple branch (line 867): `NameError`.
* `_enter_state('expect_sub_command')` calls the transition with no
  arguments although `_tr_expect_sub_command` requires `datum`: `TypeError`.
* `_st_sync` enters the nonexistent state `'expect_parameter'` for a tuple
  value: `getattr` raises `AttributeError`.
* `_st_expect_sub_command`'s dict branch calls `self._tr_sync(datum)` with
  an argument `_tr_sync` does not take: `TypeError`.

Emitter log calls (`error`, `critical`, `protocol`, `verbose`) are not
modelled; only the state change and the step return value are. -/

inductive PyError where
  | nameError
  | typeError
  | attributeError
  | indexError
  deriving Repr, DecidableEq

/-- `RdParser` state (the attributes the claims depend on; the byte
accumulators `data`, `parameters`, `command_bytes`, `param_bytes` are not
modelled). -/
structure PSt where
  state : String
  ct : List (Nat × CTVal)
  paramList : List PElem
  whichParam : Nat
  decoded : Option String
  dec : RdDec
  command : Option Nat
  subCommand : Option Nat
  datum : Option Nat
  last : Option Nat
  isReply : Bool
  lastIsReply : Bool
  remaining : Int

/-- `_h_prepare_for_command` (lines 847-857): clears the per-command state;
note it sets `self.decoded = None` and resets the table to the root. -/
def hPrepare (p : PSt) : PSt :=
  { p with command := none, subCommand := none, decoded := none, ct := CT }

/-- `_enter_state('sync')`. -/
def enterSync (p : PSt) : PSt := hPrepare { p with state := "sync" }

/-- `_enter_state('expect_command')`. -/
def enterExpectCommand (p : PSt) : PSt :=
  hPrepare { p with state := "expect_command" }

/-- `_tr_expect_reply` (lines 904-909): adjusts `decoded` and primes the
decoder with `param_list[which_param]` -- which at this point is the `REPLY`
marker, an `int`, so `spec[0]` in `prime` raises `TypeError`. -/
def enterExpectReply (p : PSt) : Except PyError PSt :=
  let p := { p with state := "expect_reply" }
  let p := { p with decoded := match p.decoded with
                               | none => some ""
                               | some d => some (d ++ "\n") }
  match p.paramList.get? p.whichParam with
  | some (.spec sp) =>
    match primeRd p.dec sp none with
    | some d => .ok { p with dec := d }
    | none => .error .attributeError
  | some _ => .error .typeError
  | none => .error .indexError

/-- `_h_check_for_reply` (lines 859-881).  The tuple branch primes the
decoder and then evaluates `f'Decoding parameter {_next}.'` where `_next` is
undefined: `NameError`. -/
def hCheckForReply (p : PSt) : Except PyError PSt :=
  match p.paramList.get? p.whichParam with
  | none => .error .indexError
  | some (.spec sp) =>
    match primeRd p.dec sp none with
    | none => .error .attributeError
    | some _ => .error .nameError
  | some (.marker i) =>
    if i = REPLY then
      if p.whichParam + 1 > p.paramList.length then .ok (enterSync p)
      else enterExpectReply p
    else .ok p
  | some (.str _) => .ok p

/-- `_tr_decode_parameters` (lines 935-940): `decoded := param_list[0]` (the
label), `which_param := 1`, then `_h_check_for_reply`. -/
def enterDecodeParameters (p : PSt) : Except PyError PSt :=
  let p := { p with state := "decode_parameters" }
  match p.paramList.get? 0 with
  | some (.str s) => hCheckForReply { p with decoded := some s, whichParam := 1 }
  | some _ => .error .typeError
  | none => .error .indexError

/-- `_enter_state('expect_sub_command')`: `_enter_state` invokes the
transition with no arguments, but `_tr_expect_sub_command` requires a
`datum` parameter, so the call raises `TypeError` before any dispatch. -/
def enterExpectSubCommand (_p : PSt) : Except PyError PSt := .error .typeError

/-- `_format_decoded` (lines 791-799), for the single-argument call sites:
appends to `self.decoded` (a `TypeError` when that is `None`) and returns
Python `None` -- the method has no return statement. -/
def formatDecoded (p : PSt) (msg : String) : Except PyError (PSt × Option String) :=
  match p.decoded with
  | none => .error .typeError
  | some d => .ok ({ p with decoded := some (d ++ msg) }, none)

/-- `_st_expect_command` (lines 993-1024). -/
def stExpectCommand (p : PSt) (datum : Nat) : Except PyError (PSt × Option String) :=
  if datum &&& CMD_MASK != 0 then
    match lookupCT p.ct datum with
    | some (.lbl s) =>
      match formatDecoded p s with
      | .error e => .error e
      | .ok (p1, msg) => .ok (enterExpectCommand p1, msg)
    | some (.tbl _) =>
      match enterExpectSubCommand p with
      | .error e => .error e
      | .ok p1 => .ok (p1, none)
    | some (.tup l) =>
      match enterDecodeParameters { p with paramList := l } with
      | .error e => .error e
      | .ok p1 => .ok (p1, none)
    | some (.pylist _ _) => .ok (enterSync p, none)
    | none => .ok (enterSync p, none)
  else
    .ok (hPrepare p, none)

/-- `_st_sync` (lines 1032-1059).  A tuple value enters the nonexistent
state `'expect_parameter'`; an unknown or non-command byte falls off the end
of the handler (no state change, `None`). -/
def stSync (p : PSt) (datum : Nat) : Except PyError (PSt × Option String) :=
  if datum &&& CMD_MASK != 0 then
    match lookupCT p.ct datum with
    | some (.lbl s) =>
      match formatDecoded p s with
      | .error e => .error e
      | .ok (p1, msg) => .ok (enterExpectCommand p1, msg)
    | some (.tbl _) =>
      match enterExpectSubCommand p with
      | .error e => .error e
      | .ok p1 => .ok (p1, none)
    | some (.tup _) => .error .attributeError
    | some (.pylist _ _) => .ok (enterSync p, none)
    | none => .ok (p, none)
  else
    .ok (p, none)

/-- `_st_expect_sub_command` (lines 944-973). -/
def stExpectSubCommand (p : PSt) (datum : Nat) : Except PyError (PSt × Option String) :=
  if datum &&& CMD_MASK != 0 then
    match lookupCT p.ct datum with
    | some (.lbl s) =>
      match formatDecoded p s with
      | .error e => .error e
      | .ok (p1, msg) => .ok (enterExpectCommand p1, msg)
    | some (.tbl _) => .error .typeError
    | some (.tup l) =>
      match enterDecodeParameters { p with paramList := l } with
      | .error e => .error e
      | .ok p1 => .ok (p1, none)
    | some (.pylist _ _) => .ok (p, none)
    | none => .ok (hPrepare p, none)
  else
    .ok (enterSync p, none)

/-- `_st_decode_parameters` (lines 913-933).  On the final parameter the
handler enters `expect_command` -- whose transition resets `decoded` to
`None` -- and only then returns `self.decoded`; on an intermediate parameter
it advances `which_param` and calls `_h_check_for_reply`. -/
def stDecodeParameters (p : PSt) (datum : Nat) :
    Except PyError (PSt × Option String) :=
  if datum &&& CMD_MASK != 0 then .ok (enterSync p, none)
  else
    let r := stepRd p.dec datum none
    let p := { p with dec := r.1 }
    match r.2.1 with
    | .more => .ok (p, none)
    | .err => .error .typeError
    | .done s =>
      match p.decoded with
      | none => .error .typeError
      | some d =>
        let p := { p with decoded := some (d ++ " " ++ s) }
        if p.whichParam + 1 > p.paramList.length then
          let p1 := enterExpectCommand p
          .ok (p1, p1.decoded)
        else
          match hCheckForReply { p with whichParam := p.whichParam + 1 } with
          | .error e => .error e
          | .ok p1 => .ok (p1, none)

/-- `_st_expect_reply` (lines 885-902).  Completion appends `Reply=` and the
decoded string and returns the accumulated message without leaving the
state. -/
def stExpectReply (p : PSt) (datum : Nat) : Except PyError (PSt × Option String) :=
  if datum &&& CMD_MASK != 0 then .ok (enterSync p, none)
  else
    let r := stepRd p.dec datum (some p.remaining)
    let p := { p with dec := r.1 }
    match r.2.1 with
    | .more => .ok (p, none)
    | .err => .error .typeError
    | .done s =>
      match p.decoded with
      | none => .error .typeError
      | some d => .ok ({ p with decoded := some (d ++ "Reply=" ++ s) },
                       some (d ++ "Reply=" ++ s))

/-- `RdParser.step` (lines 1068-1088): records the datum and direction and
dispatches on the current state. -/
def stepParser (p : PSt) (datum : Nat) (is_reply : Bool) (remaining : Int) :
    Except PyError (PSt × Option String) :=
  let p := { p with last := p.datum, datum := some datum,
                    lastIsReply := p.isReply, isReply := is_reply,
                    remaining := remaining }
  match p.state with
  | "sync" => stSync p datum
  | "expect_command" => stExpectCommand p datum
  | "expect_sub_command" => stExpectSubCommand p datum
  | "decode_parameters" => stDecodeParameters p datum
  | "expect_reply" => stExpectReply p datum
  | _ => .error .attributeError

/-- `RdParser.__init__` followed by `_enter_state('sync')`. -/
def initParser : PSt :=
  hPrepare
    { state := "sync", ct := CT, paramList := [], whichParam := 0,
      decoded := some "", dec := initRd, command := none, subCommand := none,
      datum := none, last := none, isReply := false, lastIsReply := false,
      remaining := 0 }

/-- A parser that has just entered `expect_command` (as after a completed
command). -/
def c4p : PSt := { initParser with state := "expect_command" }

end Ruida

/-- C4: failing input for the parameter dispatch.  When the parser in
`expect_command` receives `0x88` (MOVE_ABS_XY, a parameter spec list), it
enters `decode_parameters`, but the transition's `_h_check_for_reply` primes
the first parameter and then evaluates an f-string that references the
undefined local `_next` (src/ruida_parser.py line 867): `NameError`.  No
parameter byte is ever consumed and no decoded line can be produced.  From
the initial `sync` state the same byte crashes even earlier: `_st_sync`
enters the nonexistent state `'expect_parameter'` (line 1052), so `getattr`
raises `AttributeError`. -/
theorem c4_decode_parameters_crash :
    Ruida.stepParser Ruida.c4p 0x88 false 9 = .error .nameError ∧
    Ruida.stepParser Ruida.initParser 0x88 false 9 = .error .attributeError :=
  ⟨rfl, rfl⟩

/-- C5: failing input for the bare-label dispatch.  On the first byte `0xD7`
(EOF, a bare label) the parser crashes with `TypeError`: `_format_decoded`
appends the label to `self.decoded`, which `_h_prepare_for_command` (run on
entering `sync`) left as `None`.  Moreover, even started with a non-`None`
`decoded`, `step` still returns `None` rather than the label text, because
`_format_decoded` has no return statement -- so the decoded line would never
be emitted either way. -/
theorem c5_label_dispatch_crash :
    Ruida.stepParser Ruida.initParser 0xD7 false 0 = .error .typeError ∧
    (Ruida.stepParser { Ruida.initParser with decoded := some "" } 0xD7 false 0).map
        (fun r => r.2) = .ok none :=
  ⟨rfl, rfl⟩
